import Mathlib

/-!
Verification of the world-tables client-side fetch-orchestration and
window-lifecycle manager (crate world-tables-gui, files src/app.rs and
src/types.rs) and of the pagination-header computation of the data service
(crate world-tables-server, src/main.rs).

The Rust code is shallowly embedded: structs become Lean structures,
enums become inductives, `HashMap<String, V>` registries become
association lists `List (String × V)` (list order stands in for the
map's iteration order), `f64` wall-clock time becomes `ℚ`, fallible code
returns `Option`/`Except`, and a `panic!`/out-of-bounds abort is the
`none` outcome of an `Option`-valued step.  The entity/key/label value
types come from the external `dbent` crate (out of scope per the spec's
§1): a `Key<T>` is modelled as `Option String` and an `EntityLabel<T>`
reference as a key/label pair, exactly the interface the GUI code
consumes (`key()`, `to_string()`, `label()`).
-/

namespace WorldTables

/-- A selection tag: key plus cached display label (dbent `Tag`). -/
structure Tag where
  key : String
  label : String
deriving DecidableEq

/-- A cross-entity reference: optional key plus cached label
(dbent `EntityLabel<T>`; `key()` yields the key when present). -/
structure EntityLabel where
  key : Option String
  label : String
deriving DecidableEq

/-- `Key<T>::to_string()` as used for registry keys in app.rs. -/
def keyStr (k : Option String) : String := k.getD ""

/-- world_tables_base::City. -/
structure City where
  id : Option String
  name : String
  state : EntityLabel
  country : EntityLabel
  latitude : Option ℚ
  longitude : Option ℚ
deriving DecidableEq

/-- world_tables_base::State. -/
structure State where
  id : Option String
  name : String
  code : String
  country : EntityLabel
  latitude : Option ℚ
  longitude : Option ℚ
  cities : List City
deriving DecidableEq

/-- world_tables_base::Country. -/
structure Country where
  iso2 : Option String
  iso3 : String
  name : String
  code : ℕ
  capital : EntityLabel
  currency : EntityLabel
  tld : String
  native : String
  region : EntityLabel
  subregion : EntityLabel
  latitude : ℚ
  longitude : ℚ
  emoji : String
  emoji_u : String
  states : List State
deriving DecidableEq

/-- world_tables_base::WorldSubregion. -/
structure WorldSubregion where
  id : Option String
  name : String
  region : EntityLabel
  countries : List Country
deriving DecidableEq

/-- world_tables_base::WorldRegion. -/
structure WorldRegion where
  id : Option String
  name : String
  subregions : List WorldSubregion
  countries : List Country
deriving DecidableEq

/-- world_tables_base::Currency. -/
structure Currency where
  iso : Option String
  name : String
  symbol : String
  countries : List Country
deriving DecidableEq

/-- world_tables_base::Metadata. -/
structure Metadata where
  version : String
  countries : ℕ
  states : ℕ
  cities : ℕ
  regions : ℕ
  subregions : ℕ
  currencies : ℕ
deriving DecidableEq

/-- types.rs `DataKind`: one fetch-intent kind per channel pair. -/
inductive DataKind where
  | Metadata
  | Countries
  | States
  | Cities
  | Regions
  | Subregions
  | Currencies
  | Country
  | State
  | City
  | Region
  | Subregion
  | Currency
  | CountriesByRegion
  | CountriesBySubregion
  | CountriesByCurrency
  | StatesByCountry
  | CitiesByCountry
  | CitiesByState
  | SubregionsByRegion
deriving DecidableEq

/-- types.rs `Pagination` (all fields parsed from response headers). -/
structure Pagination where
  count : ℕ
  total_count : ℕ
  page : ℕ
  limit : ℕ
  total_pages : ℕ
deriving DecidableEq

/-- types.rs `Counts`: auxiliary counts, tagged by owning entity kind. -/
inductive Counts where
  | country (states : ℕ) (cities : ℕ)
  | state (cities : ℕ)
  | region (countries : ℕ) (subregions : ℕ)
  | subregion (countries : ℕ)
  | currency (countries : ℕ)
deriving DecidableEq

/-- The decoded shape of a response body.  serde decoding of a
`reqwest::blocking::Response` into a given target type succeeds exactly
when the body has that shape; `malformed` is a body matching no shape. -/
inductive RespBody where
  | metadata (m : Metadata)
  | countries (l : List Country)
  | states (l : List State)
  | cities (l : List City)
  | regions (l : List WorldRegion)
  | subregions (l : List WorldSubregion)
  | currencies (l : List Currency)
  | country (c : Country)
  | state (s : State)
  | city (c : City)
  | region (r : WorldRegion)
  | subregion (s : WorldSubregion)
  | currency (c : Currency)
  | malformed
deriving DecidableEq

/-- types.rs `DataResponse`: what the dispatcher worker places on the
channel on success. -/
structure DataResponse where
  response : RespBody
  pagination : Option Pagination
  counts : Option Counts
  page_text : String
deriving DecidableEq

/-- types.rs `TableData<T>`. -/
structure TableData (T : Type) where
  data : List T
  pagination : Pagination
  page_text : String
deriving DecidableEq

/-- types.rs `ObjectData<T>` (field `show` is called `visible` here
because `show` is a Lean keyword). -/
structure ObjectData (T : Type) where
  data : Option T
  visible : Bool
  title : String
  counts : Option Counts
deriving DecidableEq

/-- `impl Default for ObjectData<T>`: no data, shown, empty title. -/
def ObjectData.default {T : Type} : ObjectData T :=
  { data := none, visible := true, title := "", counts := none }

/-- types.rs `FilteredTableData<T>` (field `show` renamed `visible`). -/
structure FilteredTableData (T : Type) where
  data : Option (TableData T)
  visible : Bool
  title : String
deriving DecidableEq

/-- types.rs `ServerData<T>`: the bootstrap state. -/
inductive ServerData (T : Type) where
  | ok (t : T)
  | loading
  | failed (msg : String) (time : ℚ)
  | empty
deriving DecidableEq

/-- types.rs `ServerData::is_ok`. -/
def ServerData.is_ok {T : Type} : ServerData T → Bool
  | .ok _ => true
  | _ => false

/-- app.rs `RETRY_DELAY` (10.0 time units). -/
def RETRY_DELAY : ℚ := 10

/-- One tick of the metadata bootstrap block of `App::update`
(app.rs lines 714-754), as a pure function of the current state, the
current time `ctx.input(|i| i.time)` and the `try_recv` outcome on the
Metadata channel (`some` = a drained message, already decoded: `.ok`
when the fetch and the JSON decode succeeded, `.error` otherwise).
Returns the next state, the messages appended to the error log, and
whether a metadata fetch was dispatched this tick. -/
def metadata_step (s : ServerData Metadata) (now : ℚ)
    (recv : Option (Except String Metadata)) :
    ServerData Metadata × List String × Bool :=
  if s.is_ok then (s, [], false)
  else
    match s with
    | .empty => (.loading, [], true)
    | .loading =>
      match recv with
      | none => (.loading, [], false)
      | some (.ok m) => (.ok m, [], false)
      | some (.error e) => (.failed e now, [], false)
    | .failed message time =>
      if now ≥ time + RETRY_DELAY then (.empty, [], false)
      else if message ≠ "" then (.failed "" time, [message], false)
      else (.failed message time, [], false)
    | .ok m => (.ok m, [], false)

/-! ### Window registries

A `HashMap<String, V>` registry is modelled as an association list; the
list order stands in for the map's (arbitrary) iteration order.  The
app's code keeps keys unique by only ever inserting through a vacant
`Entry`. -/

/-- `HashMap::get` / `get_mut` lookup by key. -/
def getEntry {α : Type} : List (String × α) → String → Option α
  | [], _ => none
  | (k, v) :: rest, key => if k = key then some v else getEntry rest key

/-- Mutation through `get_mut`: apply `f` to the entry at `key` if
present, leave the registry unchanged otherwise. -/
def setEntry {α : Type} : List (String × α) → String → (α → α) →
    List (String × α)
  | [], _, _ => []
  | (k, v) :: rest, key, f =>
    if k = key then (k, f v) :: setEntry rest key f
    else (k, v) :: setEntry rest key f

/-- `HashMap::insert` into a vacant entry. -/
def insertNew {α : Type} (m : List (String × α)) (key : String) (v : α) :
    List (String × α) :=
  (key, v) :: m

/-- Number of registry entries carrying a given key. -/
def countKey {α : Type} (m : List (String × α)) (key : String) : ℕ :=
  (m.filter (fun p => p.1 = key)).length

/-- app.rs `App::new_window`: guarded "create if vacant" insert.
Returns whether a new window was created (and hence whether
`handle_selection` goes on to dispatch a fetch). -/
def new_window {T : Type} (key : String) (label : String)
    (windows_map : List (String × ObjectData T)) :
    Bool × List (String × ObjectData T) :=
  match getEntry windows_map key with
  | some _ => (false, windows_map)
  | none =>
    (true, insertNew windows_map key { ObjectData.default with title := label })

/-- app.rs `App::handle_selection`: on a selection, create the window if
vacant and only then dispatch the fetch.  The second component counts
the requests dispatched by this call. -/
def handle_selection {T : Type} (selection : Option Tag)
    (windows_map : List (String × ObjectData T)) :
    List (String × ObjectData T) × ℕ :=
  match selection with
  | none => (windows_map, 0)
  | some t =>
    match new_window t.key t.label windows_map with
    | (true, m) => (m, 1)
    | (false, m) => (m, 0)

/-- app.rs `App::handle_filtered_selection`: guarded insert of a
filtered-list window; the initial fetch fires at creation only.  The
`title` argument is the per-kind title prefix of the source's match. -/
def handle_filtered_selection {T : Type} (selection : Option Tag)
    (title : String) (windows_map : List (String × FilteredTableData T)) :
    List (String × FilteredTableData T) × ℕ :=
  match selection with
  | none => (windows_map, 0)
  | some t =>
    match getEntry windows_map t.key with
    | some _ => (windows_map, 0)
    | none =>
      (insertNew windows_map t.key
        { data := none, visible := true,
          title := title ++ " from " ++ t.label }, 1)

/-- The per-tick garbage-collection pass over one object-window
registry (app.rs, e.g. lines 1000-1048): the loop records in
`garbage : Option<String>` the key of each entry whose `show` flag is
false (the last such key wins), then removes that single key. -/
def gc_pass {T : Type} (m : List (String × ObjectData T)) :
    List (String × ObjectData T) :=
  match m.foldl (fun garbage p => if p.2.visible then garbage else some p.1)
      none with
  | none => m
  | some key => m.filter (fun p => p.1 ≠ key)

/-- The identical garbage-collection pass over one filtered-list
registry (app.rs, e.g. lines 1337-1372). -/
def gc_filtered_pass {T : Type} (m : List (String × FilteredTableData T)) :
    List (String × FilteredTableData T) :=
  match m.foldl (fun garbage p => if p.2.visible then garbage else some p.1)
      none with
  | none => m
  | some key => m.filter (fun p => p.1 ≠ key)

/-! ### Response decoding -/

/-- serde decode of a response body into `Vec<Country>`. -/
def decodeCountries : RespBody → Option (List Country)
  | .countries l => some l
  | _ => none

/-- serde decode of a response body into `Vec<State>`. -/
def decodeStates : RespBody → Option (List State)
  | .states l => some l
  | _ => none

/-- serde decode of a response body into `Vec<City>`. -/
def decodeCities : RespBody → Option (List City)
  | .cities l => some l
  | _ => none

/-- serde decode of a response body into `Vec<WorldRegion>`. -/
def decodeRegions : RespBody → Option (List WorldRegion)
  | .regions l => some l
  | _ => none

/-- serde decode of a response body into `Vec<WorldSubregion>`. -/
def decodeSubregions : RespBody → Option (List WorldSubregion)
  | .subregions l => some l
  | _ => none

/-- serde decode of a response body into `Vec<Currency>`. -/
def decodeCurrencies : RespBody → Option (List Currency)
  | .currencies l => some l
  | _ => none

/-- serde decode of a response body into a single `Country`. -/
def decodeCountry : RespBody → Option Country
  | .country c => some c
  | _ => none

/-- serde decode of a response body into a single `State`. -/
def decodeState : RespBody → Option State
  | .state s => some s
  | _ => none

/-- serde decode of a response body into a single `City`. -/
def decodeCity : RespBody → Option City
  | .city c => some c
  | _ => none

/-- serde decode of a response body into a single `WorldRegion`. -/
def decodeRegion : RespBody → Option WorldRegion
  | .region r => some r
  | _ => none

/-- serde decode of a response body into a single `WorldSubregion`. -/
def decodeSubregion : RespBody → Option WorldSubregion
  | .subregion s => some s
  | _ => none

/-- serde decode of a response body into a single `Currency`. -/
def decodeCurrency : RespBody → Option Currency
  | .currency c => some c
  | _ => none

/-- types.rs `impl From<DataResponse> for Option<TableData<T>>`:
`json().ok()` then build the table, unwrapping `pagination`.  The outer
`none` is the `pagination.unwrap()` panic (decode succeeded but no
pagination was extracted); the inner `Option` is the value assigned. -/
def tableDataOfResponse {T : Type} (decode : RespBody → Option (List T))
    (dr : DataResponse) : Option (Option (TableData T)) :=
  match decode dr.response with
  | none => some none
  | some data =>
    match dr.pagination with
    | none => none
    | some pagination =>
      some (some { data := data, pagination := pagination,
                   page_text := dr.page_text })

/-! ### The correlator -/

/-- The registries and table states of app.rs `struct App` that the
response correlator and the garbage collector touch (the network
client, URL builder, channel table and egui state carry no
correlator-visible data and are omitted). -/
structure App where
  metadata : ServerData Metadata
  countries : Option (TableData Country)
  states : Option (TableData State)
  cities : Option (TableData City)
  regions : Option (TableData WorldRegion)
  subregions : Option (TableData WorldSubregion)
  currencies : Option (TableData Currency)
  country_windows : List (String × ObjectData Country)
  state_windows : List (String × ObjectData State)
  city_windows : List (String × ObjectData City)
  region_windows : List (String × ObjectData WorldRegion)
  subregion_windows : List (String × ObjectData WorldSubregion)
  currency_windows : List (String × ObjectData Currency)
  countries_by_region_windows : List (String × FilteredTableData Country)
  countries_by_subregion_windows : List (String × FilteredTableData Country)
  countries_by_currency_windows : List (String × FilteredTableData Country)
  states_by_country_windows : List (String × FilteredTableData State)
  cities_by_country_windows : List (String × FilteredTableData City)
  cities_by_state_windows : List (String × FilteredTableData City)
  subregions_by_region_windows : List (String × FilteredTableData WorldSubregion)
  errors : List String
deriving DecidableEq

/-- The `App::default()` correlator-visible state. -/
def App.init : App :=
  { metadata := .empty
    countries := none, states := none, cities := none
    regions := none, subregions := none, currencies := none
    country_windows := [], state_windows := [], city_windows := []
    region_windows := [], subregion_windows := [], currency_windows := []
    countries_by_region_windows := []
    countries_by_subregion_windows := []
    countries_by_currency_windows := []
    states_by_country_windows := []
    cities_by_country_windows := []
    cities_by_state_windows := []
    subregions_by_region_windows := []
    errors := [] }

/-- The body of the per-channel drain loop of `App::recv_response`
(app.rs lines 232-422), for one drained result on the channel of
`data_kind`.  The result is `none` exactly when the original code
aborts the process on that result: the `unreachable!()` for
`DataKind::Metadata`, the `panic!` when a filtered-list body fails to
decode, the `data[0]` indexing of an empty page, the `.key().unwrap()`
of a missing foreign key, and the `pagination.unwrap()` inside
`From<DataResponse>`. -/
def recv_response_one (s : App) (data_kind : DataKind)
    (result : Except String DataResponse) : Option App :=
  match result with
  | .error e => some { s with errors := s.errors ++ [e] }
  | .ok dr =>
    match data_kind with
    | .Metadata => none
    | .Countries =>
      (tableDataOfResponse decodeCountries dr).map
        (fun o => { s with countries := o })
    | .States =>
      (tableDataOfResponse decodeStates dr).map
        (fun o => { s with states := o })
    | .Cities =>
      (tableDataOfResponse decodeCities dr).map
        (fun o => { s with cities := o })
    | .Regions =>
      (tableDataOfResponse decodeRegions dr).map
        (fun o => { s with regions := o })
    | .Subregions =>
      (tableDataOfResponse decodeSubregions dr).map
        (fun o => { s with subregions := o })
    | .Currencies =>
      (tableDataOfResponse decodeCurrencies dr).map
        (fun o => { s with currencies := o })
    | .Country =>
      match decodeCountry dr.response with
      | none => some s
      | some c =>
        some { s with
          country_windows :=
            setEntry s.country_windows (keyStr c.iso2)
              (fun w => { w with data := some c, counts := dr.counts }) }
    | .State =>
      match decodeState dr.response with
      | none => some s
      | some st =>
        some { s with
          state_windows :=
            setEntry s.state_windows (keyStr st.id)
              (fun w => { w with data := some st, counts := dr.counts }) }
    | .City =>
      match decodeCity dr.response with
      | none => some s
      | some c =>
        some { s with
          city_windows :=
            setEntry s.city_windows (keyStr c.id)
              (fun w => { w with data := some c, counts := dr.counts }) }
    | .Region =>
      match decodeRegion dr.response with
      | none => some s
      | some r =>
        some { s with
          region_windows :=
            setEntry s.region_windows (keyStr r.id)
              (fun w => { w with data := some r, counts := dr.counts }) }
    | .Subregion =>
      match decodeSubregion dr.response with
      | none => some s
      | some sr =>
        some { s with
          subregion_windows :=
            setEntry s.subregion_windows (keyStr sr.id)
              (fun w => { w with data := some sr, counts := dr.counts }) }
    | .Currency =>
      match decodeCurrency dr.response with
      | none => some s
      | some c =>
        some { s with
          currency_windows :=
            setEntry s.currency_windows (keyStr c.iso)
              (fun w => { w with data := some c, counts := dr.counts }) }
    | .CountriesByRegion =>
      match tableDataOfResponse decodeCountries dr with
      | none => none
      | some objects =>
        match objects with
        | none => none
        | some td =>
          match td.data with
          | [] => none
          | c :: _ =>
            match c.region.key with
            | none => none
            | some key =>
              some { s with
                countries_by_region_windows :=
                  setEntry s.countries_by_region_windows key
                    (fun w => { w with data := some td }) }
    | .CountriesBySubregion =>
      match tableDataOfResponse decodeCountries dr with
      | none => none
      | some objects =>
        match objects with
        | none => none
        | some td =>
          match td.data with
          | [] => none
          | c :: _ =>
            match c.subregion.key with
            | none => none
            | some key =>
              some { s with
                countries_by_subregion_windows :=
                  setEntry s.countries_by_subregion_windows key
                    (fun w => { w with data := some td }) }
    | .CountriesByCurrency =>
      match tableDataOfResponse decodeCountries dr with
      | none => none
      | some objects =>
        match objects with
        | none => none
        | some td =>
          match td.data with
          | [] => none
          | c :: _ =>
            match c.currency.key with
            | none => none
            | some key =>
              some { s with
                countries_by_currency_windows :=
                  setEntry s.countries_by_currency_windows key
                    (fun w => { w with data := some td }) }
    | .StatesByCountry =>
      match tableDataOfResponse decodeStates dr with
      | none => none
      | some objects =>
        match objects with
        | none => none
        | some td =>
          match td.data with
          | [] => none
          | st :: _ =>
            match st.country.key with
            | none => none
            | some key =>
              some { s with
                states_by_country_windows :=
                  setEntry s.states_by_country_windows key
                    (fun w => { w with data := some td }) }
    | .CitiesByCountry =>
      match tableDataOfResponse decodeCities dr with
      | none => none
      | some objects =>
        match objects with
        | none => none
        | some td =>
          match td.data with
          | [] => none
          | c :: _ =>
            match c.country.key with
            | none => none
            | some key =>
              some { s with
                cities_by_country_windows :=
                  setEntry s.cities_by_country_windows key
                    (fun w => { w with data := some td }) }
    | .CitiesByState =>
      match tableDataOfResponse decodeCities dr with
      | none => none
      | some objects =>
        match objects with
        | none => none
        | some td =>
          match td.data with
          | [] => none
          | c :: _ =>
            match c.state.key with
            | none => none
            | some key =>
              some { s with
                cities_by_state_windows :=
                  setEntry s.cities_by_state_windows key
                    (fun w => { w with data := some td }) }
    | .SubregionsByRegion =>
      match tableDataOfResponse decodeSubregions dr with
      | none => none
      | some objects =>
        match objects with
        | none => none
        | some td =>
          match td.data with
          | [] => none
          | sr :: _ =>
            match sr.region.key with
            | none => none
            | some key =>
              some { s with
                subregions_by_region_windows :=
                  setEntry s.subregions_by_region_windows key
                    (fun w => { w with data := some td }) }

/-! ### The request dispatcher's worker (app.rs `App::send_request`) -/

/-- The integer-valued response headers the worker reads (a header that
is absent or unparsable is `none`). -/
structure Headers where
  pagination_count : Option ℕ
  pagination_total_count : Option ℕ
  pagination_page : Option ℕ
  pagination_limit : Option ℕ
  pagination_total_pages : Option ℕ
  states_count : Option ℕ
  cities_count : Option ℕ
  countries_count : Option ℕ
  subregions_count : Option ℕ
deriving DecidableEq

/-- Require a header value, with the source's context message. -/
def requireHeader (v : Option ℕ) (msg : String) : Except String ℕ :=
  match v with
  | some n => .ok n
  | none => .error msg

/-- types.rs `Pagination::with_headers`. -/
def Pagination.with_headers (h : Headers) : Except String Pagination := do
  let count ← requireHeader h.pagination_count
    "Pagination-Count header not present"
  let total_count ← requireHeader h.pagination_total_count
    "Pagination-Total-Count header not present"
  let page ← requireHeader h.pagination_page
    "Pagination-Page header not present"
  let limit ← requireHeader h.pagination_limit
    "Pagination-Limit header not present"
  let total_pages ← requireHeader h.pagination_total_pages
    "Pagination-Total-Pages header not present"
  return { count, total_count, page, limit, total_pages }

/-- types.rs `Counts::with_country_headers`. -/
def Counts.with_country_headers (h : Headers) : Except String Counts := do
  let states ← requireHeader h.states_count "States-Count header not present"
  let cities ← requireHeader h.cities_count "Cities-Count header not present"
  return .country states cities

/-- types.rs `Counts::with_state_headers`. -/
def Counts.with_state_headers (h : Headers) : Except String Counts := do
  let cities ← requireHeader h.cities_count "Cities-Count header not present"
  return .state cities

/-- types.rs `Counts::with_region_headers`. -/
def Counts.with_region_headers (h : Headers) : Except String Counts := do
  let countries ← requireHeader h.countries_count
    "Countries-Count header not present"
  let subregions ← requireHeader h.subregions_count
    "Subregions-Count header not present"
  return .region countries subregions

/-- types.rs `Counts::with_subregion_headers`. -/
def Counts.with_subregion_headers (h : Headers) : Except String Counts := do
  let countries ← requireHeader h.countries_count
    "Countries-Count header not present"
  return .subregion countries

/-- types.rs `Counts::with_currency_headers`. -/
def Counts.with_currency_headers (h : Headers) : Except String Counts := do
  let countries ← requireHeader h.countries_count
    "Countries-Count header not present"
  return .currency countries

/-- The pagination extraction of the `get_result` closure of
`App::send_request` (app.rs lines 200-204): `None` for `Metadata` and
the six single-entity kinds, parsed from headers for every other
kind. -/
def pagination_extraction (data_kind : DataKind) (h : Headers) :
    Except String (Option Pagination) :=
  match data_kind with
  | .Metadata | .Country | .State | .City | .Region | .Subregion
  | .Currency => .ok none
  | _ => (Pagination.with_headers h).map some

/-- The counts extraction of the `get_result` closure (app.rs lines
206-213): kind-specific headers for `Country`, `State`, `Region`,
`Subregion` and `Currency`; `None` for every other kind — including
`City`, which has no `Counts` variant. -/
def counts_extraction (data_kind : DataKind) (h : Headers) :
    Except String (Option Counts) :=
  match data_kind with
  | .Country => (Counts.with_country_headers h).map some
  | .State => (Counts.with_state_headers h).map some
  | .Region => (Counts.with_region_headers h).map some
  | .Subregion => (Counts.with_subregion_headers h).map some
  | .Currency => (Counts.with_currency_headers h).map some
  | _ => .ok none

/-- The `get_result` closure of `App::send_request` (app.rs lines
192-223), given a network response that arrived with headers `h` and
body `body`: extract `pagination` and `counts` (an extraction failure
propagates as the worker's error result) and render `page_text`
(default "1"). -/
def get_result (data_kind : DataKind) (h : Headers) (body : RespBody) :
    Except String DataResponse :=
  match pagination_extraction data_kind h with
  | .error e => .error e
  | .ok pagination =>
    match counts_extraction data_kind h with
    | .error e => .error e
    | .ok counts =>
      .ok { response := body
            pagination := pagination
            counts := counts
            page_text :=
              (pagination.map (fun p => toString p.page)).getD "1" }

/-- The kinds for which the worker extracts `Pagination` (the
complement of the `None` arms of the first match in `get_result`). -/
def carries_pagination : DataKind → Bool
  | .Metadata | .Country | .State | .City | .Region | .Subregion
  | .Currency => false
  | _ => true

/-- The kinds for which the worker extracts `Counts` (the `Some` arms
of the second match in `get_result`): five kinds, not including
`City`. -/
def carries_counts : DataKind → Bool
  | .Country | .State | .Region | .Subregion | .Currency => true
  | _ => false

/-! ### The data service's pagination headers (server main.rs)

`pagination_headers` computes
`Pagination-Total-Pages = (total_count as f32 / pagination.limit as f32).ceil() as usize`.
IEEE-754 binary32 arithmetic is modelled exactly: both casts and the
division round to nearest, ties to even, at 24 significant bits; every
value exercised here is finite, nonnegative and normal (the quotient of
two nonzero `usize` values lies between `2 ^ -64` and `2 ^ 64`), and
`.ceil()` is exact on `f32`.  An `f32` value is kept in exact dyadic
form `m * 2 ^ (e - 23)` with integer mantissa and binade exponent, so
every step is integer arithmetic. -/

/-- Fuelled binary logarithm (structural recursion, so that the kernel
can evaluate it; equals `Nat.log2` for fuel at least the argument). -/
def log2Fuel : ℕ → ℕ → ℕ
  | 0, _ => 0
  | fuel + 1, n => if n < 2 then 0 else log2Fuel fuel (n / 2) + 1

/-- `floor (log2 n)` for positive `n`. -/
def natLog2F (n : ℕ) : ℕ := log2Fuel n n

/-- Round the fraction `n / d` (with `d > 0`) to the nearest integer,
ties to even. -/
def rneDiv (n d : ℕ) : ℕ :=
  let q := n / d
  let r := n % d
  if 2 * r < d then q
  else if d < 2 * r then q + 1
  else if q % 2 = 0 then q else q + 1

/-- Least `j` with `x * 2 ^ j ≥ b` (fuelled; fuel `b` suffices). -/
def negExpFuel : ℕ → ℕ → ℕ → ℕ
  | 0, _, _ => 0
  | fuel + 1, x, b => if b ≤ x then 0 else negExpFuel fuel (2 * x) b + 1

/-- The binade exponent of the positive fraction `a / b`: the unique
`e` with `2 ^ e ≤ a / b < 2 ^ (e + 1)`. -/
def floorLog2Frac (a b : ℕ) : ℤ :=
  if b ≤ a then (natLog2F (a / b) : ℤ)
  else -((negExpFuel b (2 * a) b : ℤ) + 1)

/-- Round the positive fraction `a / b` to the nearest `f32`:
mantissa/exponent pair `(m, e)` denoting the exact value
`m * 2 ^ (e - 23)` (round to nearest, ties to even). -/
def f32ofFrac (a b : ℕ) : ℕ × ℤ :=
  let e := floorLog2Frac a b
  let m :=
    if 23 ≤ e then rneDiv a (b * 2 ^ (e - 23).toNat)
    else rneDiv (a * 2 ^ (23 - e).toNat) b
  (m, e)

/-- The `n as f32` cast of a `usize`, rounded back to `ℕ` (the rounded
value of a nonnegative integer below `2 ^ 64` is again an integer,
since its unit in the last place is at least `1`). -/
def natRoundF32 (n : ℕ) : ℕ :=
  if n = 0 then 0
  else
    let e := natLog2F n
    if 23 ≤ e then rneDiv n (2 ^ (e - 23)) * 2 ^ (e - 23)
    else n

/-- Server main.rs, the `Pagination-Total-Pages` value computed by
`pagination_headers`:
`((total_count as f32 / pagination.limit as f32).ceil() as usize)`.
Both casts round to `f32`, the division result rounds to `f32`, the
ceiling is exact, and the final cast saturates (`limit = 0` divides by
zero, giving `f32` infinity, which saturates to `usize::MAX` on a
64-bit target). -/
def total_pages_server (total_count limit : ℕ) : ℕ :=
  let tc := natRoundF32 total_count
  let lim := natRoundF32 limit
  if tc = 0 then 0
  else if lim = 0 then 2 ^ 64 - 1
  else
    let p := f32ofFrac tc lim
    if 23 ≤ p.2 then p.1 * 2 ^ (p.2 - 23).toNat
    else (p.1 + 2 ^ (23 - p.2).toNat - 1) / 2 ^ (23 - p.2).toNat

/-- Exact ceiling division on naturals: `ceil (total_count / limit)`,
the formula the spec states for `Pagination-Total-Pages`. -/
def total_pages_exact (total_count limit : ℕ) : ℕ :=
  (total_count + limit - 1) / limit

/-! ### The Metadata channel as a transition system (for the
`unreachable!()` of `App::recv_response`)

`App::update` first runs the bootstrap block (which alone issues
metadata requests and alone drains the Metadata channel, and returns
early while the state is not `Ok`), and only once the state is `Ok`
reaches the `recv_response` drain loop (app.rs line 849), whose
`DataKind::Metadata` arm is `unreachable!()`.  The system below tracks
the bootstrap state together with the Metadata channel: `in_flight`
counts spawned metadata workers that have not yet placed their result
on the channel, `queued` is the channel content in delivery order.
Worker completions (`deliver`) interleave arbitrarily with UI ticks. -/

structure MetaSys where
  bootstrap : ServerData Metadata
  in_flight : ℕ
  queued : List (Except String Metadata)

/-- One UI tick, as it affects the bootstrap state and the Metadata
channel: while the bootstrap state is not `Ok`, the bootstrap block
runs (`metadata_step`), spawning a worker when it dispatches a fetch
and consuming the head of the channel when it is `Loading`; once the
state is `Ok` the tick leaves both untouched provided the channel is
empty (a non-empty channel would execute the `unreachable!()`). -/
def meta_tick (s : MetaSys) (now : ℚ) : MetaSys :=
  if s.bootstrap.is_ok then s
  else
    let recv :=
      match s.bootstrap, s.queued with
      | .loading, r :: _ => some r
      | _, _ => none
    let stepped := metadata_step s.bootstrap now recv
    { bootstrap := stepped.1
      in_flight := s.in_flight + (if stepped.2.2 then 1 else 0)
      queued :=
        match s.bootstrap, s.queued with
        | .loading, _ :: rest => rest
        | _, q => q }

/-- Interleaving of UI ticks and worker completions. -/
inductive MetaStep : MetaSys → MetaSys → Prop
  | tick (s : MetaSys) (now : ℚ) : MetaStep s (meta_tick s now)
  | deliver (b : ServerData Metadata) (n : ℕ)
      (q : List (Except String Metadata)) (r : Except String Metadata) :
      MetaStep ⟨b, n + 1, q⟩ ⟨b, n, q ++ [r]⟩

/-- States reachable from the initial app state (`ServerData::Empty`,
no worker, empty channel). -/
inductive MetaReachable : MetaSys → Prop
  | init : MetaReachable ⟨.empty, 0, []⟩
  | step {s t : MetaSys} : MetaReachable s → MetaStep s t → MetaReachable t

/-- The channel-accounting invariant: exactly one metadata fetch is
outstanding (in flight or queued) while the bootstrap state is
`Loading`, none otherwise. -/
def MetaInv (s : MetaSys) : Prop :=
  s.in_flight + s.queued.length =
    (match s.bootstrap with | .loading => 1 | _ => 0)

/-! ### The spec's description of single-entity routing (for
comparison with `App::recv_response`)

The spec's §4.6 routes a single-entity response by "the key embedded in
the window itself (tracked at window-creation time, not the
response)". -/

/-- Modelled from the spec's words, NOT from app.rs: route a decoded
single-entity response to the window under the key for which the
window was created (the key of the in-flight request), ignoring any
key carried by the payload. -/
def spec_single_entity_route {T : Type} (window_key : String) (payload : T)
    (counts : Option Counts) (m : List (String × ObjectData T)) :
    List (String × ObjectData T) :=
  setEntry m window_key
    (fun w => { w with data := some payload, counts := counts })

/-- The mutation the correlator applies to a filtered-list window:
store the decoded table. -/
def withTable {T : Type} (td : TableData T) (w : FilteredTableData T) :
    FilteredTableData T :=
  { w with data := some td }

/-- The mutation the correlator applies to an object window: store the
decoded payload and the counts. -/
def withObject {T : Type} (payload : T) (counts : Option Counts)
    (w : ObjectData T) : ObjectData T :=
  { w with data := some payload, counts := counts }

/-! ### Concrete sample values

Fixtures used by the concrete instantiations of the theorems below. -/

/-- An entity reference with no key. -/
def emptyRef : EntityLabel := ⟨none, ""⟩

/-- A reference to region "B". -/
def regionRefB : EntityLabel := ⟨some "B", "Region B"⟩

/-- A country with every field defaulted (Rust `Default`). -/
def countryDefault : Country :=
  ⟨none, "", "", 0, emptyRef, emptyRef, "", "", emptyRef, emptyRef,
   0, 0, "", "", []⟩

/-- A country whose own key is "B". -/
def countryB : Country := { countryDefault with iso2 := some "B" }

/-- A country whose own key is "US". -/
def countryUS : Country :=
  { countryDefault with iso2 := some "US", name := "United States" }

/-- A country belonging to region "B". -/
def countryInB : Country :=
  { countryDefault with iso2 := some "C1", region := regionRefB }

/-- A parsed pagination header set. -/
def pagFull : Pagination :=
  { count := 100, total_count := 195, page := 7, limit := 100,
    total_pages := 2 }

/-- A header map carrying every pagination and count header. -/
def hFull : Headers :=
  ⟨some 100, some 195, some 7, some 100, some 2,
   some 3, some 4, some 5, some 6⟩

/-- A successful filtered-countries response whose page is empty. -/
def drEmptyCountries : DataResponse :=
  ⟨.countries [], some pagFull, none, "1"⟩

/-- A successful filtered-states response whose page is empty. -/
def drEmptyStates : DataResponse := ⟨.states [], some pagFull, none, "1"⟩

/-- A successful filtered-cities response whose page is empty. -/
def drEmptyCities : DataResponse := ⟨.cities [], some pagFull, none, "1"⟩

/-- A successful filtered-subregions response whose page is empty. -/
def drEmptySubregions : DataResponse :=
  ⟨.subregions [], some pagFull, none, "1"⟩

/-- A filtered-list window for region "A", still loading. -/
def ftdA : FilteredTableData Country := ⟨none, true, "Countries from A"⟩

/-- A filtered-list window for region "B", still loading. -/
def ftdB : FilteredTableData Country := ⟨none, true, "Countries from B"⟩

/-- An app with countries-by-region windows for regions "A" and "B",
both awaiting their response. -/
def appAB : App :=
  { App.init with countries_by_region_windows := [("A", ftdA), ("B", ftdB)] }

/-- Region B's countries-by-region response. -/
def drB : DataResponse := ⟨.countries [countryInB], some pagFull, none, "1"⟩

/-- The table B's response decodes to. -/
def tdB : TableData Country := ⟨[countryInB], pagFull, "1"⟩

/-- An app whose only country window was created for key "A". -/
def appA : App :=
  { App.init with country_windows := [("A", ObjectData.default)] }

/-- A single-country response whose payload carries key "B". -/
def drCountryB : DataResponse := ⟨.country countryB, none, none, "1"⟩

/-- An app whose only country window was created for key "US". -/
def appUS : App :=
  { App.init with country_windows := [("US", ObjectData.default)] }

/-- A single-country response for "US" with its counts. -/
def drCountryUS : DataResponse :=
  ⟨.country countryUS, none, some (.country 3 4), "1"⟩

/-- A closed (invisible) window. -/
def hiddenU : ObjectData Unit := ⟨none, false, "w", none⟩

/-- A still-open window. -/
def shownU : ObjectData Unit := ⟨none, true, "v", none⟩

/-- A registry with two windows closed in the same tick. -/
def mHidden2 : List (String × ObjectData Unit) :=
  [("a", hiddenU), ("b", hiddenU)]

/-- A registry with exactly one window closed. -/
def mOneHidden : List (String × ObjectData Unit) :=
  [("a", shownU), ("b", hiddenU)]

/-- A decoded metadata payload. -/
def m0 : Metadata := ⟨"1.0", 0, 0, 0, 0, 0, 0⟩

/-- The worker's result for a listing request under `hFull`. -/
def drListFull : DataResponse := ⟨.malformed, some pagFull, none, "7"⟩

/-! ### Registry lemmas (shared helpers) -/

/-- A key absent from a registry heads no entry. -/
theorem countKey_zero_of_none {α : Type} {m : List (String × α)} {k : String}
    (h : getEntry m k = none) : countKey m k = 0 := by
  induction m with
  | nil => rfl
  | cons p rest ih =>
    simp only [getEntry] at h
    by_cases hk : p.1 = k
    · simp [hk] at h
    · simp only [countKey, List.filter] at *
      simp [hk] at *
      exact ih h

/-- Mutating at an absent key leaves the registry unchanged. -/
theorem setEntry_of_none {α : Type} {m : List (String × α)} {k : String}
    (f : α → α) (h : getEntry m k = none) : setEntry m k f = m := by
  induction m with
  | nil => rfl
  | cons p rest ih =>
    obtain ⟨k1, v⟩ := p
    simp only [getEntry] at h
    by_cases hk : k1 = k
    · simp [hk] at h
    · simp only [hk, if_false] at h
      simp [setEntry, hk, ih h]

/-- Mutating at one key does not touch entries under other keys. -/
theorem getEntry_setEntry_ne {α : Type} (m : List (String × α))
    (k k2 : String) (f : α → α) (h : k2 ≠ k) :
    getEntry (setEntry m k f) k2 = getEntry m k2 := by
  induction m with
  | nil => rfl
  | cons p rest ih =>
    obtain ⟨k1, v⟩ := p
    by_cases hk : k1 = k
    · subst hk
      have hne : k1 ≠ k2 := fun hc => h hc.symm
      simpa [setEntry, getEntry, hne] using ih
    · by_cases h2 : k1 = k2
      · simp [setEntry, getEntry, hk, h2, h]
      · simpa [setEntry, getEntry, hk, h2] using ih

/-- Mutating at a key applies the mutation to that key's entry. -/
theorem getEntry_setEntry_self {α : Type} (m : List (String × α))
    (k : String) (f : α → α) :
    getEntry (setEntry m k f) k = (getEntry m k).map f := by
  induction m with
  | nil => rfl
  | cons p rest ih =>
    obtain ⟨k1, v⟩ := p
    by_cases hk : k1 = k
    · subst hk
      simp [setEntry, getEntry]
    · simpa [setEntry, getEntry, hk] using ih

/-! ### Claim C1 -/

/-- C1: selecting an entity key dispatches no fetch and inserts no
entry when the key is already registered, and inserts exactly one
entry and dispatches exactly one fetch when it is absent; hence
selecting the same key twice before its first response arrives (so the
entry is still present) yields exactly one dispatched fetch and one
registry entry. -/
theorem selection_dedup {T : Type} (m : List (String × ObjectData T))
    (k l l2 : String) :
    (∀ w, getEntry m k = some w →
      handle_selection (some ⟨k, l⟩) m = (m, 0))
    ∧ (getEntry m k = none →
      handle_selection (some ⟨k, l⟩) m
        = ((k, { ObjectData.default with title := l }) :: m, 1))
    ∧ (getEntry m k = none →
      (handle_selection (some ⟨k, l2⟩)
        (handle_selection (some ⟨k, l⟩) m).1).2 = 0
      ∧ countKey (handle_selection (some ⟨k, l2⟩)
          (handle_selection (some ⟨k, l⟩) m).1).1 k = 1
      ∧ (handle_selection (some ⟨k, l⟩) m).2
          + (handle_selection (some ⟨k, l2⟩)
              (handle_selection (some ⟨k, l⟩) m).1).2 = 1) := by
  refine ⟨fun w hw => ?_, fun h => ?_, fun h => ?_⟩
  · simp [handle_selection, new_window, hw]
  · simp [handle_selection, new_window, insertNew, h]
  · have h1 : handle_selection (some ⟨k, l⟩) m
        = ((k, { ObjectData.default with title := l }) :: m, 1) := by
      simp [handle_selection, new_window, insertNew, h]
    have h2 : getEntry ((k, { ObjectData.default with title := l }) :: m) k
        = some { ObjectData.default with title := l } := by
      simp [getEntry]
    refine ⟨?_, ?_, ?_⟩
    · rw [h1]; simp [handle_selection, new_window, h2]
    · rw [h1]
      simp [handle_selection, new_window, h2, countKey, List.filter,
        countKey_zero_of_none h]
      have := countKey_zero_of_none h
      simpa [countKey] using this
    · rw [h1]; simp [handle_selection, new_window, h2]

/-- C1 witness: a concrete double selection of "US" on an empty
registry dispatches one fetch and leaves one entry. -/
theorem selection_dedup_witness :
    (handle_selection (some ⟨"US", "Usa2"⟩)
      (handle_selection (some ⟨"US", "Usa"⟩)
        ([] : List (String × ObjectData Country))).1).2 = 0
    ∧ countKey (handle_selection (some ⟨"US", "Usa2"⟩)
        (handle_selection (some ⟨"US", "Usa"⟩)
          ([] : List (String × ObjectData Country))).1).1 "US" = 1
    ∧ (handle_selection (some ⟨"US", "Usa"⟩)
        ([] : List (String × ObjectData Country))).2
      + (handle_selection (some ⟨"US", "Usa2"⟩)
          (handle_selection (some ⟨"US", "Usa"⟩)
            ([] : List (String × ObjectData Country))).1).2 = 1 :=
  (selection_dedup ([] : List (String × ObjectData Country))
    "US" "Usa" "Usa2").2.2 rfl

/-! ### Claim C2 -/

/-- C2: the bootstrap state machine, stepped once per tick: `Empty`
issues the metadata fetch and moves to `Loading`; `Loading` moves to
`Ok` on a drained success and to `Failed(message, now)` on a drained
failure; `Failed(message, t)` moves to `Empty` exactly when
`now ≥ t + RETRY_DELAY` (10 time units), and otherwise surfaces a
non-empty message once into the error log and becomes
`Failed("", t)`; `Ok` is terminal. -/
theorem bootstrap_state_machine (now t : ℚ) (msg e : String) (m : Metadata)
    (recv : Option (Except String Metadata)) :
    metadata_step .empty now recv = (.loading, [], true)
    ∧ metadata_step .loading now none = (.loading, [], false)
    ∧ metadata_step .loading now (some (.ok m)) = (.ok m, [], false)
    ∧ metadata_step .loading now (some (.error e))
        = (.failed e now, [], false)
    ∧ metadata_step (.failed msg t) now recv
        = (if now ≥ t + RETRY_DELAY then (.empty, [], false)
           else (.failed "" t, if msg = "" then [] else [msg], false))
    ∧ ((metadata_step (.failed msg t) now recv).1 = .empty
        ↔ now ≥ t + RETRY_DELAY)
    ∧ metadata_step (.ok m) now recv = (.ok m, [], false) := by
  refine ⟨rfl, rfl, rfl, rfl, ?_, ?_, rfl⟩
  · by_cases h : now ≥ t + RETRY_DELAY
    · simp [metadata_step, ServerData.is_ok, h]
    · by_cases hm : msg = ""
      · simp [metadata_step, ServerData.is_ok, h, hm]
      · simp [metadata_step, ServerData.is_ok, h, hm]
  · by_cases h : now ≥ t + RETRY_DELAY
    · simp [metadata_step, ServerData.is_ok, h]
    · by_cases hm : msg = ""
      · simp [metadata_step, ServerData.is_ok, h, hm]
      · simp [metadata_step, ServerData.is_ok, h, hm]

/-! ### Claim C7 -/

/-- C7: the server's `Pagination-Total-Pages` is computed in `f32`
(`(total_count as f32 / limit as f32).ceil() as usize`), which agrees
with `ceil(total_count / limit)` on small inputs (101/25 gives 5,
195/100 gives 2) but not on all inputs: at
`total_count = 16777217 = 2 ^ 24 + 1, limit = 1` the `as f32` cast
rounds to `2 ^ 24` and the header reports 16777216 instead of the
exact 16777217. -/
theorem total_pages_f32_divergence :
    total_pages_server 16777217 1 = 16777216
    ∧ total_pages_exact 16777217 1 = 16777217
    ∧ total_pages_server 101 25 = 5
    ∧ total_pages_exact 101 25 = 5
    ∧ total_pages_server 195 100 = 2
    ∧ total_pages_exact 195 100 = 2 :=
  ⟨by decide, by decide, by decide, by decide, by decide, by decide⟩

/-! ### Claim C9 -/

/-- C9: draining an error result on any channel appends exactly one
message to the process-wide error log and changes nothing else: the
resulting state is the old state with `errors` extended by that one
message, every other field (all table states, all object-window and
filtered-list registries, the bootstrap state) untouched. -/
theorem error_only_appends (s : App) (data_kind : DataKind) (e : String) :
    recv_response_one s data_kind (.error e)
      = some { s with errors := s.errors ++ [e] } := rfl

/-! ### Claim C3 -/

/-- C3: for every filtered-list intent kind, a successful response
whose returned page is empty is fatal: the correlation step aborts
(`table_data.data[0]` panics on the empty page), producing no state. -/
theorem filtered_empty_page_panics (s : App) (dr : DataResponse) :
    (decodeCountries dr.response = some [] →
      recv_response_one s .CountriesByRegion (.ok dr) = none
      ∧ recv_response_one s .CountriesBySubregion (.ok dr) = none
      ∧ recv_response_one s .CountriesByCurrency (.ok dr) = none)
    ∧ (decodeStates dr.response = some [] →
      recv_response_one s .StatesByCountry (.ok dr) = none)
    ∧ (decodeCities dr.response = some [] →
      recv_response_one s .CitiesByCountry (.ok dr) = none
      ∧ recv_response_one s .CitiesByState (.ok dr) = none)
    ∧ (decodeSubregions dr.response = some [] →
      recv_response_one s .SubregionsByRegion (.ok dr) = none) := by
  refine ⟨fun h => ?_, fun h => ?_, fun h => ?_, fun h => ?_⟩ <;>
    cases hp : dr.pagination <;>
    simp [recv_response_one, tableDataOfResponse, h, hp]

/-- C3 witness: an empty page aborts each of the seven filtered
kinds at a concrete state and response. -/
theorem filtered_empty_page_panics_witness :
    (recv_response_one App.init .CountriesByRegion (.ok drEmptyCountries)
        = none
      ∧ recv_response_one App.init .CountriesBySubregion
          (.ok drEmptyCountries) = none
      ∧ recv_response_one App.init .CountriesByCurrency
          (.ok drEmptyCountries) = none)
    ∧ recv_response_one App.init .StatesByCountry (.ok drEmptyStates) = none
    ∧ (recv_response_one App.init .CitiesByCountry (.ok drEmptyCities) = none
      ∧ recv_response_one App.init .CitiesByState (.ok drEmptyCities) = none)
    ∧ recv_response_one App.init .SubregionsByRegion
        (.ok drEmptySubregions) = none :=
  ⟨(filtered_empty_page_panics App.init drEmptyCountries).1 rfl,
   (filtered_empty_page_panics App.init drEmptyStates).2.1 rfl,
   (filtered_empty_page_panics App.init drEmptyCities).2.2.1 rfl,
   (filtered_empty_page_panics App.init drEmptySubregions).2.2.2 rfl⟩

/-! ### Claim C4 -/

/-- C4: a successful non-empty filtered-list response is routed to the
window whose registry key equals the foreign-key reference on the
first element of the returned page — the response's own payload, not
any request-order bookkeeping, picks the window — and entries under
every other key are untouched (last two conjuncts). -/
theorem filtered_payload_routing (s : App) (dr : DataResponse) :
    (∀ (c : Country) (rest : List Country) (pag : Pagination) (key : String),
      decodeCountries dr.response = some (c :: rest) →
      dr.pagination = some pag → c.region.key = some key →
      recv_response_one s .CountriesByRegion (.ok dr)
        = some { s with
            countries_by_region_windows :=
              setEntry s.countries_by_region_windows key
                (withTable ⟨c :: rest, pag, dr.page_text⟩) })
    ∧ (∀ (c : Country) (rest : List Country) (pag : Pagination)
        (key : String),
      decodeCountries dr.response = some (c :: rest) →
      dr.pagination = some pag → c.subregion.key = some key →
      recv_response_one s .CountriesBySubregion (.ok dr)
        = some { s with
            countries_by_subregion_windows :=
              setEntry s.countries_by_subregion_windows key
                (withTable ⟨c :: rest, pag, dr.page_text⟩) })
    ∧ (∀ (c : Country) (rest : List Country) (pag : Pagination)
        (key : String),
      decodeCountries dr.response = some (c :: rest) →
      dr.pagination = some pag → c.currency.key = some key →
      recv_response_one s .CountriesByCurrency (.ok dr)
        = some { s with
            countries_by_currency_windows :=
              setEntry s.countries_by_currency_windows key
                (withTable ⟨c :: rest, pag, dr.page_text⟩) })
    ∧ (∀ (st : State) (rest : List State) (pag : Pagination) (key : String),
      decodeStates dr.response = some (st :: rest) →
      dr.pagination = some pag → st.country.key = some key →
      recv_response_one s .StatesByCountry (.ok dr)
        = some { s with
            states_by_country_windows :=
              setEntry s.states_by_country_windows key
                (withTable ⟨st :: rest, pag, dr.page_text⟩) })
    ∧ (∀ (c : City) (rest : List City) (pag : Pagination) (key : String),
      decodeCities dr.response = some (c :: rest) →
      dr.pagination = some pag → c.country.key = some key →
      recv_response_one s .CitiesByCountry (.ok dr)
        = some { s with
            cities_by_country_windows :=
              setEntry s.cities_by_country_windows key
                (withTable ⟨c :: rest, pag, dr.page_text⟩) })
    ∧ (∀ (c : City) (rest : List City) (pag : Pagination) (key : String),
      decodeCities dr.response = some (c :: rest) →
      dr.pagination = some pag → c.state.key = some key →
      recv_response_one s .CitiesByState (.ok dr)
        = some { s with
            cities_by_state_windows :=
              setEntry s.cities_by_state_windows key
                (withTable ⟨c :: rest, pag, dr.page_text⟩) })
    ∧ (∀ (sr : WorldSubregion) (rest : List WorldSubregion)
        (pag : Pagination) (key : String),
      decodeSubregions dr.response = some (sr :: rest) →
      dr.pagination = some pag → sr.region.key = some key →
      recv_response_one s .SubregionsByRegion (.ok dr)
        = some { s with
            subregions_by_region_windows :=
              setEntry s.subregions_by_region_windows key
                (withTable ⟨sr :: rest, pag, dr.page_text⟩) })
    ∧ (∀ {α : Type} (mm : List (String × α)) (key k2 : String) (f : α → α),
      k2 ≠ key → getEntry (setEntry mm key f) k2 = getEntry mm k2)
    ∧ (∀ {α : Type} (mm : List (String × α)) (key : String) (f : α → α),
      getEntry (setEntry mm key f) key = (getEntry mm key).map f) := by
  refine ⟨?_, ?_, ?_, ?_, ?_, ?_, ?_,
    fun mm key k2 f h => getEntry_setEntry_ne mm key k2 f h,
    fun mm key f => getEntry_setEntry_self mm key f⟩ <;>
    (intro x rest pag key h1 h2 h3;
     simp [recv_response_one, tableDataOfResponse, h1, h2, h3];
     try rfl)

/-- C4 witness: with windows for regions "A" and "B" both awaiting a
countries-by-region response, draining B's response first updates B's
window with B's page and leaves A's entry untouched. -/
theorem filtered_payload_routing_witness :
    recv_response_one appAB .CountriesByRegion (.ok drB)
      = some { appAB with
          countries_by_region_windows :=
            setEntry appAB.countries_by_region_windows "B"
              (withTable ⟨[countryInB], pagFull, drB.page_text⟩) }
    ∧ getEntry (setEntry appAB.countries_by_region_windows "B"
        (withTable ⟨[countryInB], pagFull, drB.page_text⟩)) "A"
      = getEntry appAB.countries_by_region_windows "A"
    ∧ getEntry (setEntry appAB.countries_by_region_windows "B"
        (withTable ⟨[countryInB], pagFull, drB.page_text⟩)) "B"
      = some (withTable ⟨[countryInB], pagFull, drB.page_text⟩ ftdB) :=
  ⟨(filtered_payload_routing appAB drB).1 countryInB [] pagFull "B"
      rfl rfl rfl,
   (filtered_payload_routing appAB drB).2.2.2.2.2.2.2.1
      appAB.countries_by_region_windows "B" "A" _ (by decide),
   by
    have h := (filtered_payload_routing appAB drB).2.2.2.2.2.2.2.2
      appAB.countries_by_region_windows "B"
      (withTable ⟨[countryInB], pagFull, drB.page_text⟩)
    rw [h]; rfl⟩

/-! ### Claim C6 -/

/-- C6 counterexample: the single-entity correlator does NOT use a key
tracked in the window at creation time — it keys off the response
payload.  Concretely: the only country window was created for key "A"
and a response arrives whose payload carries key "B"; the code looks
up "B", finds nothing and discards the response, leaving the state
unchanged, while routing by the window-creation key "A" (the claim's
description, `spec_single_entity_route`) would have populated window
"A". -/
theorem single_entity_window_key_cx :
    recv_response_one appA .Country (.ok drCountryB) = some appA
    ∧ spec_single_entity_route "A" countryB none appA.country_windows
        ≠ appA.country_windows := by
  constructor
  · rfl
  · simp [spec_single_entity_route, setEntry, appA, App.init,
      ObjectData.default]

/-- C6 amended: for every single-entity intent kind, the correlator
routes a successful decoded response by looking up the registry entry
under the key carried by the response payload itself (the entity's own
key field, which coincides with the window's key whenever the service
answers the requested key), populating that entry's data and counts;
if no entry with that key exists (e.g. the window was closed and
garbage-collected before the response arrived) the response is
silently discarded and nothing changes. -/
theorem single_entity_payload_key_routing (s : App) (dr : DataResponse) :
    (∀ c : Country, decodeCountry dr.response = some c →
      recv_response_one s .Country (.ok dr)
        = some { s with
            country_windows := setEntry s.country_windows (keyStr c.iso2)
              (withObject c dr.counts) }
      ∧ (getEntry s.country_windows (keyStr c.iso2) = none →
          recv_response_one s .Country (.ok dr) = some s))
    ∧ (∀ st : State, decodeState dr.response = some st →
      recv_response_one s .State (.ok dr)
        = some { s with
            state_windows := setEntry s.state_windows (keyStr st.id)
              (withObject st dr.counts) }
      ∧ (getEntry s.state_windows (keyStr st.id) = none →
          recv_response_one s .State (.ok dr) = some s))
    ∧ (∀ c : City, decodeCity dr.response = some c →
      recv_response_one s .City (.ok dr)
        = some { s with
            city_windows := setEntry s.city_windows (keyStr c.id)
              (withObject c dr.counts) }
      ∧ (getEntry s.city_windows (keyStr c.id) = none →
          recv_response_one s .City (.ok dr) = some s))
    ∧ (∀ r : WorldRegion, decodeRegion dr.response = some r →
      recv_response_one s .Region (.ok dr)
        = some { s with
            region_windows := setEntry s.region_windows (keyStr r.id)
              (withObject r dr.counts) }
      ∧ (getEntry s.region_windows (keyStr r.id) = none →
          recv_response_one s .Region (.ok dr) = some s))
    ∧ (∀ sr : WorldSubregion, decodeSubregion dr.response = some sr →
      recv_response_one s .Subregion (.ok dr)
        = some { s with
            subregion_windows := setEntry s.subregion_windows (keyStr sr.id)
              (withObject sr dr.counts) }
      ∧ (getEntry s.subregion_windows (keyStr sr.id) = none →
          recv_response_one s .Subregion (.ok dr) = some s))
    ∧ (∀ c : Currency, decodeCurrency dr.response = some c →
      recv_response_one s .Currency (.ok dr)
        = some { s with
            currency_windows := setEntry s.currency_windows (keyStr c.iso)
              (withObject c dr.counts) }
      ∧ (getEntry s.currency_windows (keyStr c.iso) = none →
          recv_response_one s .Currency (.ok dr) = some s)) := by
  refine ⟨?_, ?_, ?_, ?_, ?_, ?_⟩ <;>
    (intro x hx;
     refine ⟨by simp [recv_response_one, hx]; try rfl, fun habs => ?_⟩;
     simp [recv_response_one, hx, setEntry_of_none _ habs])

/-- C6 amended witness: the "US" window is populated by the "US"
response (payload key "US" equals the window key), applying the
routing theorem at a concrete state. -/
theorem single_entity_payload_key_routing_witness :
    recv_response_one appUS .Country (.ok drCountryUS)
      = some { appUS with
          country_windows := setEntry appUS.country_windows
            (keyStr countryUS.iso2)
            (withObject countryUS drCountryUS.counts) } :=
  ((single_entity_payload_key_routing appUS drCountryUS).1
    countryUS rfl).1

/-! ### Claim C8 -/

/-- Wrapping a successful extraction in `some` yields a present
optional value. -/
theorem map_some_ok_isSome {ε α : Type} {x : Except ε α} {o : Option α}
    (hp : x.map some = .ok o) : o.isSome = true := by
  cases x with
  | error e => simp [Except.map] at hp
  | ok v => simp [Except.map] at hp; rw [← hp]; rfl

/-- A successful pagination extraction yields a value exactly for the
kinds of `carries_pagination`. -/
theorem pagination_extraction_isSome {k : DataKind} {h : Headers}
    {pag : Option Pagination} (hp : pagination_extraction k h = .ok pag) :
    pag.isSome = carries_pagination k := by
  cases k <;> simp only [pagination_extraction] at hp <;>
    first
    | (simp only [Except.ok.injEq] at hp; rw [← hp]; rfl)
    | (rw [map_some_ok_isSome hp]; rfl)

/-- A successful counts extraction yields a value exactly for the five
kinds of `carries_counts` — in particular, never for `City`. -/
theorem counts_extraction_isSome {k : DataKind} {h : Headers}
    {counts : Option Counts} (hc : counts_extraction k h = .ok counts) :
    counts.isSome = carries_counts k := by
  cases k <;> simp only [counts_extraction] at hc <;>
    first
    | (simp only [Except.ok.injEq] at hc; rw [← hc]; rfl)
    | (rw [map_some_ok_isSome hc]; rfl)

/-- C8 counterexample: `City` is one of the six single-entity kinds,
yet the worker extracts no `Counts` for it even when every count
header is present — the `Counts` enum has no City variant and `City`
falls into the catch-all `None` arm of the source's match — refuting
"a Counts value from the response headers for each of the six
single-entity kinds". -/
theorem dispatcher_city_counts_cx :
    (get_result .City hFull .malformed).map (fun dr => dr.counts.isSome)
      = .ok false
    ∧ counts_extraction .City hFull = .ok none := ⟨rfl, rfl⟩

/-- C8 amended: on a successful network response the worker extracts a
`Pagination` value for every kind except the six single-entity kinds
and `Metadata`, extracts a `Counts` value for exactly five of the six
single-entity kinds (`Country`, `State`, `Region`, `Subregion`,
`Currency` — not `City`, which carries no counts) and for no other
kind, and `page_text` is the pagination page rendered as text,
defaulting to "1" when no pagination applies. -/
theorem dispatcher_header_extraction (k : DataKind) (h : Headers)
    (b : RespBody) (dr : DataResponse) :
    get_result k h b = .ok dr →
    dr.pagination.isSome = carries_pagination k
    ∧ dr.counts.isSome = carries_counts k
    ∧ dr.page_text = (dr.pagination.map (fun p => toString p.page)).getD "1"
    ∧ dr.response = b := by
  intro hres
  unfold get_result at hres
  rcases hp : pagination_extraction k h with e | pag <;> rw [hp] at hres
  · simp at hres
  · rcases hc : counts_extraction k h with e2 | counts <;> rw [hc] at hres
    · simp at hres
    · simp only [Except.ok.injEq] at hres
      subst hres
      exact ⟨pagination_extraction_isSome hp,
        counts_extraction_isSome hc, rfl, rfl⟩

/-- C8 amended witness: a `Countries` listing request under fully
populated headers, applying the extraction theorem concretely. -/
theorem dispatcher_header_extraction_witness :
    drListFull.pagination.isSome = carries_pagination .Countries
    ∧ drListFull.counts.isSome = carries_counts .Countries
    ∧ drListFull.page_text
        = (drListFull.pagination.map (fun p => toString p.page)).getD "1"
    ∧ drListFull.response = RespBody.malformed :=
  dispatcher_header_extraction .Countries hFull .malformed drListFull rfl

/-! ### Claim C5 -/

/-- With no invisible entry, the garbage scan leaves its accumulator
unchanged. -/
theorem foldl_garbage_of_no_hidden {α : Type} (vis : α → Bool) :
    ∀ (m : List (String × α)) (acc : Option String),
      m.filter (fun p => !vis p.2) = [] →
      m.foldl (fun g p => if vis p.2 then g else some p.1) acc = acc := by
  intro m
  induction m with
  | nil => intro acc _; rfl
  | cons p rest ih =>
    intro acc hf
    by_cases hv : vis p.2
    · simp only [List.filter, Bool.not_eq_true', hv] at hf
      simp only [List.foldl, hv, if_true]
      exact ih acc (by simpa using hf)
    · simp [List.filter, hv] at hf

/-- With exactly one invisible entry, the garbage scan returns that
entry's key. -/
theorem foldl_garbage_of_one_hidden {α : Type} (vis : α → Bool) :
    ∀ (m : List (String × α)) (q : String × α) (acc : Option String),
      m.filter (fun p => !vis p.2) = [q] →
      m.foldl (fun g p => if vis p.2 then g else some p.1) acc
        = some q.1 := by
  intro m
  induction m with
  | nil => intro q acc hf; simp at hf
  | cons p rest ih =>
    intro q acc hf
    by_cases hv : vis p.2
    · simp only [List.filter, Bool.not_eq_true', hv] at hf
      simp only [List.foldl, hv, if_true]
      exact ih q acc (by simpa using hf)
    · have hf2 : p :: rest.filter (fun p => !vis p.2) = [q] := by
        simpa [List.filter, hv] using hf
      have hpq : p = q := (List.cons_eq_cons.mp hf2).1
      have hrest : rest.filter (fun p => !vis p.2) = [] :=
        (List.cons_eq_cons.mp hf2).2
      simp only [List.foldl]
      rw [if_neg hv, foldl_garbage_of_no_hidden vis rest (some p.1) hrest,
        hpq]

/-- The per-tick garbage pass leaves only visible entries, provided at
most one entry is invisible. -/
theorem gc_core {α : Type} (vis : α → Bool) (m : List (String × α))
    (hle : (m.filter (fun p => !vis p.2)).length ≤ 1)
    (p : String × α)
    (hp : p ∈ (match m.foldl
        (fun g r => if vis r.2 then g else some r.1) none with
      | none => m
      | some key => m.filter (fun r => r.1 ≠ key))) :
    vis p.2 = true := by
  rcases hf : m.filter (fun r => !vis r.2) with _ | ⟨q, rest2⟩
  · have hg := foldl_garbage_of_no_hidden vis m none hf
    rw [hg] at hp
    have := List.filter_eq_nil_iff.mp hf p hp
    simpa using this
  · have hrest : rest2 = [] := by
      cases rest2 with
      | nil => rfl
      | cons r rs => rw [hf] at hle; simp at hle
    subst hrest
    have hg := foldl_garbage_of_one_hidden vis m q none hf
    rw [hg] at hp
    have hmem := List.mem_filter.mp hp
    by_contra hvis
    have hvfalse : vis p.2 = false := by
      cases hb : vis p.2
      · rfl
      · exact absurd hb hvis
    have hhid : p ∈ m.filter (fun r => !vis r.2) :=
      List.mem_filter.mpr ⟨hmem.1, by simp [hvfalse]⟩
    rw [hf] at hhid
    have : p = q := by simpa using hhid
    subst this
    simp at hmem

/-- C5 counterexample: two windows closed in the same tick; the GC
pass records only the last invisible key in its `Option<String>` and
removes a single entry, so the other closed window ("a", still
invisible) survives the tick — refuting "every registry entry whose
visible flag is false has been removed ... for any number of
simultaneously closed windows". -/
theorem gc_single_removal_cx :
    gc_pass mHidden2 = [("a", hiddenU)] ∧ hiddenU.visible = false :=
  ⟨rfl, rfl⟩

/-- C5 amended: the per-tick GC pass removes one invisible entry per
registry per tick (the last one in iteration order); when at most one
entry of a registry (object or filtered-list) is invisible at that
tick, the registry afterwards holds no invisible entry — additional
simultaneously closed windows wait for later ticks.  A subsequent
selection of a garbage-collected key finds the registry vacant, so it
creates a fresh entry and dispatches a fresh fetch. -/
theorem gc_pass_amended {T : Type} (m : List (String × ObjectData T))
    (mf : List (String × FilteredTableData T))
    (mo : List (String × ObjectData T)) (k l : String) :
    ((m.filter (fun p => !p.2.visible)).length ≤ 1 →
      ∀ p ∈ gc_pass m, p.2.visible = true)
    ∧ ((mf.filter (fun p => !p.2.visible)).length ≤ 1 →
      ∀ p ∈ gc_filtered_pass mf, p.2.visible = true)
    ∧ (getEntry mo k = none →
      handle_selection (some ⟨k, l⟩) mo
        = ((k, { ObjectData.default with title := l }) :: mo, 1)) :=
  ⟨fun hle p hp => gc_core (fun w => w.visible) m hle p hp,
   fun hle p hp => gc_core (fun w => w.visible) mf hle p hp,
   fun h => by simp [handle_selection, new_window, insertNew, h]⟩

/-- C5 amended witness: a registry with exactly one closed window is
fully visible after one GC pass, and re-selecting a collected key on
the now-vacant registry re-creates the window and re-fetches. -/
theorem gc_pass_amended_witness :
    (∀ p ∈ gc_pass mOneHidden, p.2.visible = true)
    ∧ handle_selection (some ⟨"b", "B"⟩)
        ([] : List (String × ObjectData Unit))
      = ([("b", { ObjectData.default with title := "B" })], 1) :=
  ⟨(gc_pass_amended mOneHidden
      ([] : List (String × FilteredTableData Unit)) [] "b" "B").1
      (by decide),
   (gc_pass_amended mOneHidden
      ([] : List (String × FilteredTableData Unit)) [] "b" "B").2.2 rfl⟩

/-! ### Claim C10 -/

/-- A UI tick preserves the metadata channel-accounting invariant. -/
theorem metaInv_tick (s : MetaSys) (now : ℚ) (h : MetaInv s) :
    MetaInv (meta_tick s now) := by
  obtain ⟨b, n, q⟩ := s
  cases b with
  | ok m => exact h
  | empty =>
    have h2 : n + q.length = 0 := h
    show n + 1 + q.length = 1
    omega
  | loading =>
    cases q with
    | nil => exact h
    | cons r rest =>
      have h2 : n + (rest.length + 1) = 1 := h
      cases r with
      | ok m =>
        show n + 0 + rest.length = 0
        omega
      | error e =>
        show n + 0 + rest.length = 0
        omega
  | failed msg t =>
    have h2 : n + q.length = 0 := h
    by_cases hc : now ≥ t + RETRY_DELAY
    · simp only [meta_tick, ServerData.is_ok, metadata_step, MetaInv]
      simp [hc]
      exact ⟨by omega, List.length_eq_zero.mp (by omega)⟩
    · by_cases hm : msg = "" <;>
        · simp only [meta_tick, ServerData.is_ok, metadata_step, MetaInv]
          simp [hc, hm]
          exact ⟨by omega, List.length_eq_zero.mp (by omega)⟩

/-- A worker completion preserves the channel-accounting invariant. -/
theorem metaInv_deliver (b : ServerData Metadata) (n : ℕ)
    (q : List (Except String Metadata)) (r : Except String Metadata)
    (h : MetaInv ⟨b, n + 1, q⟩) : MetaInv ⟨b, n, q ++ [r]⟩ := by
  cases b <;>
    · have h2 := h
      simp only [MetaInv] at h2 ⊢
      simp only [List.length_append, List.length_cons, List.length_nil]
        at h2 ⊢
      omega

/-- Every reachable state satisfies the channel-accounting
invariant. -/
theorem metaInv_reachable (s : MetaSys) (h : MetaReachable s) :
    MetaInv s := by
  induction h with
  | init => simp [MetaInv]
  | step _ hstep ih =>
    cases hstep with
    | tick _ now3 => exact metaInv_tick _ now3 ih
    | deliver b n q r => exact metaInv_deliver b n q r ih

/-- C10: in every reachable execution, once the bootstrap state is
`Ok` the Metadata channel is empty and no metadata worker is in
flight, so the correlator (which runs only once the state is `Ok` and
drains every channel non-blockingly) can never observe a result on the
Metadata channel and the `unreachable!()` arm of `App::recv_response`
(modelled by the aborting `Metadata` branch of `recv_response_one`) is
never executed: each metadata request is consumed by the `Loading`
branch of the bootstrap block and no metadata request is issued from
`Ok`. -/
theorem metadata_channel_never_observed (s : MetaSys)
    (hr : MetaReachable s) (hok : s.bootstrap.is_ok = true) :
    s.in_flight = 0 ∧ s.queued = [] := by
  have h := metaInv_reachable s hr
  obtain ⟨b, n, q⟩ := s
  cases b <;> simp [ServerData.is_ok] at hok
  simp [MetaInv] at h
  exact ⟨h.1, h.2⟩

/-- C10 witness: the concrete run Empty → Loading (fetch spawned) →
delivery → Ok consumes the single metadata message, and the theorem
applied to the resulting reachable `Ok` state reports an empty
channel. -/
theorem metadata_channel_never_observed_witness :
    MetaReachable ⟨.ok m0, 0, []⟩
    ∧ (⟨.ok m0, 0, []⟩ : MetaSys).in_flight = 0
    ∧ (⟨.ok m0, 0, []⟩ : MetaSys).queued = [] := by
  have h1 : MetaReachable ⟨.loading, 1, []⟩ :=
    .step .init (.tick ⟨.empty, 0, []⟩ 0)
  have h2 : MetaReachable ⟨.loading, 0, [.ok m0]⟩ :=
    .step h1 (.deliver .loading 0 [] (.ok m0))
  have h3 : MetaReachable ⟨.ok m0, 0, []⟩ :=
    .step h2 (.tick ⟨.loading, 0, [.ok m0]⟩ 0)
  exact ⟨h3, metadata_channel_never_observed ⟨.ok m0, 0, []⟩ h3 rfl⟩

end WorldTables
